import Mathlib

/-!
Verification development for the forex-pulse repository.

Shallow embedding of the MT5 bridge service (`src/mt5_bridge.py`) and the
economic-calendar ingestion script (`src/scripts/ingest_economic_calendar.py`).

Conventions of the embedding:
* Python dict responses are modelled as `JVal.obj` association lists that
  mirror the source dict literals key for key, in source order.
* The vendor `MetaTrader5` module is modelled as an oracle record `MT5Conn`
  of total functions; a vendor call that can return `None` returns an
  `Option`.  Every handler additionally returns the list of vendor calls it
  performed (`ConnCall`), in order, so "performs no connector call" is a
  statement about that trace.
* Current time is passed in explicitly: `nowIso` models
  `datetime.now().isoformat()` and `nowEpoch` models `int(time.time())` /
  `datetime.now(utc)` collapsed to epoch seconds.
* `sanitize_string` on a Lean `String` is the identity (Lean strings are
  always valid unicode, so the UTF-8 encode/decode round trip with
  replacement changes nothing); it is therefore not reproduced.
* Python truthiness on optional strings / ints (`None` and `""` / `0` are
  falsy) is modelled by the `truthy*` helpers, and `x or d` by the `pyOr*`
  helpers.
-/

namespace ForexPulse

/-- JSON-like values, the shape of every response dict. -/
inductive JVal where
  | bool : Bool → JVal
  | int : Int → JVal
  | rat : Rat → JVal
  | str : String → JVal
  | list : List JVal → JVal
  | obj : List (String × JVal) → JVal

/-- Key lookup in an association list (Python dict literals here never repeat keys). -/
def jGet : List (String × JVal) → String → Option JVal
  | [], _ => none
  | (k, v) :: rest, key => if k = key then some v else jGet rest key

/-- Key lookup on a JSON object; `none` on non-objects. -/
def jLookup (v : JVal) (key : String) : Option JVal :=
  match v with
  | .obj fields => jGet fields key
  | _ => none

/-- The uniform failure envelope `{"success": False, "error": msg}`. -/
def errEnvelope (msg : String) : JVal :=
  .obj [("success", .bool false), ("error", .str msg)]

/-- The uniform success envelope `{"success": True, "data": payload}`. -/
def dataEnvelope (payload : JVal) : JVal :=
  .obj [("success", .bool true), ("data", payload)]

/-- `{"success": False, "error": "Invalid session ID"}`. -/
def invalidSessionEnv : JVal := errEnvelope "Invalid session ID"

/-- A single quote character, kept out of string literals. -/
def sq : String := String.mk [Char.ofNat 39]

/-- `sanitize_string(error[1] if error else default)` for an `mt5.last_error()` result. -/
def lastErrMsg (e : Option (Int × String)) (default : String) : String :=
  match e with
  | some p => p.2
  | none => default

/-- Python truthiness of an optional string: `None` and `""` are falsy. -/
def truthyS (s : Option String) : Bool :=
  match s with
  | none => false
  | some v => v ≠ ""

/-- Python truthiness of an optional int: `None` and `0` are falsy. -/
def truthyI (n : Option Int) : Bool :=
  match n with
  | none => false
  | some v => v ≠ 0

/-- Python `x or d` on an optional float (`None` and `0.0` fall to `d`). -/
def pyOrRat (x : Option Rat) (d : Rat) : Rat :=
  match x with
  | none => d
  | some v => if v = 0 then d else v

/-! ## Session registry (`sessions: Dict[str, Dict]`) -/

/-- One entry of the `sessions` dict (`src/mt5_bridge.py:183-188`). -/
structure Session where
  login : Int
  server : String
  connected_at : String
  last_activity : String
deriving DecidableEq

/-- The in-memory session table, an insertion-ordered string-keyed map. -/
abbrev Sessions := List (String × Session)

/-- Python `sid in sessions`. -/
def sessionsContains (st : Sessions) (sid : String) : Bool :=
  st.any (fun p => p.1 = sid)

/-- Python `sessions[sid] = v` (replace if present, else append). -/
def sessionsSet : Sessions → String → Session → Sessions
  | [], sid, v => [(sid, v)]
  | (k, w) :: rest, sid, v =>
      if k = sid then (sid, v) :: rest else (k, w) :: sessionsSet rest sid v

/-- Python `sessions.get(sid)`. -/
def sessionsGet? (st : Sessions) (sid : String) : Option Session :=
  (st.find? (fun p => p.1 = sid)).map Prod.snd

/-- `sessions[sid]["last_activity"] = now` (no-op when absent; the handlers
only execute it under the containment guard). -/
def touchSession (st : Sessions) (sid : String) (now : String) : Sessions :=
  match sessionsGet? st sid with
  | some s => sessionsSet st sid { s with last_activity := now }
  | none => st

/-- The §4.1 `touch(session_id) -> bool` contract as the handlers implement it
inline: look the id up, update `last_activity` when found, report whether it
was found. -/
def touch (st : Sessions) (sid : String) (now : String) : Sessions × Bool :=
  if sessionsContains st sid then (touchSession st sid now, true) else (st, false)

/-! ## Vendor data shapes -/

/-- `mt5.symbol_info(...)` result (only the fields the source reads). -/
structure SymbolInfo where
  visible : Bool
  sel : Bool
deriving DecidableEq

/-- `mt5.symbol_info_tick(...)` result. -/
structure TickInfo where
  bid : Rat
  ask : Rat
deriving DecidableEq

/-- `mt5.terminal_info()` result; `server_time` is `Option` because the source
guards it with `hasattr`. -/
structure TerminalInfo where
  connected : Bool
  server_time : Option Int
deriving DecidableEq

/-- `mt5.account_info()` result. -/
structure AccountInfo where
  login : Int
  server : String
  balance : Rat
  equity : Rat
  margin : Rat
  margin_free : Rat
  margin_level : Rat
  currency : String
  leverage : Int
  company : String
deriving DecidableEq

/-- One element of `mt5.positions_get(...)`. -/
structure Position where
  ticket : Int
  symbol : String
  ptype : Int
  volume : Rat
  price_open : Rat
  sl : Rat
  tp : Rat
  profit : Rat
  comment : String
deriving DecidableEq

/-- One element of `mt5.orders_get()`. -/
structure PendingOrder where
  ticket : Int
  symbol : String
  otype : Int
  volume_initial : Rat
  price_open : Rat
  sl : Rat
  tp : Rat
  comment : String
deriving DecidableEq

/-- One element of `mt5.symbols_get()`. -/
structure SymEntry where
  name : String
  description : String
  path : String
deriving DecidableEq

/-- One raw rate bar, indexed `bar[0] .. bar[7]` in the source
(time, open, high, low, close, tick_volume, spread, real_volume). -/
structure RawBar where
  r0 : Int
  r1 : Rat
  r2 : Rat
  r3 : Rat
  r4 : Rat
  r5 : Int
  r6 : Int
  r7 : Int
deriving DecidableEq

/-- The `request_dict` passed to `mt5.order_send`; `position` is `some` only
for the close-position dict, which carries that extra key. -/
structure OrderReqD where
  action : Int
  symbol : String
  volume : Rat
  otype : Int
  price : Rat
  sl : Rat
  tp : Rat
  deviation : Int
  magic : Int
  comment : String
  type_time : Int
  type_filling : Int
  position : Option Int
deriving DecidableEq

/-- `mt5.order_send(...)` result (fields the source reads). -/
structure OrderResult where
  retcode : Int
  comment : String
  order : Int
  price : Rat
deriving DecidableEq

/-! Vendor constants of the `MetaTrader5` package used by the source.  Only
`TRADE_RETCODE_DONE` vs other retcodes and the `TIMEFRAME_*` encodings matter
for the properties below; the remaining values are opaque tags. -/

def TRADE_ACTION_DEAL : Int := 1
def ORDER_TYPE_BUY : Int := 0
def ORDER_TYPE_SELL : Int := 1
def POSITION_TYPE_BUY : Int := 0
def ORDER_TIME_GTC : Int := 0
def ORDER_FILLING_FOK : Int := 0
def TRADE_RETCODE_DONE : Int := 10009
def TRADE_RETCODE_REQUOTE : Int := 10004
def TIMEFRAME_M1 : Int := 1
def TIMEFRAME_M5 : Int := 5
def TIMEFRAME_M15 : Int := 15
def TIMEFRAME_M30 : Int := 30
def TIMEFRAME_H1 : Int := 16385
def TIMEFRAME_H4 : Int := 16388
def TIMEFRAME_D1 : Int := 16408

/-- `timeframe_mapping.get(tf, tf)` (`src/mt5_bridge.py:83-91`). -/
def timeframeMapping (tf : Int) : Int :=
  if tf = 1 then TIMEFRAME_M1
  else if tf = 5 then TIMEFRAME_M5
  else if tf = 15 then TIMEFRAME_M15
  else if tf = 30 then TIMEFRAME_M30
  else if tf = 60 then TIMEFRAME_H1
  else if tf = 240 then TIMEFRAME_H4
  else if tf = 1440 then TIMEFRAME_D1
  else tf

/-! ## The vendor connector oracle and call traces -/

/-- The `MetaTrader5` module as a deterministic oracle.  `initPath i` models
`mt5.initialize(paths_to_try[i])`. -/
structure MT5Conn where
  initPath : Nat → Bool
  login : Int → String → String → Bool
  terminal_info : Option TerminalInfo
  account_info : Option AccountInfo
  last_error : Option (Int × String)
  symbol_info : String → Option SymbolInfo
  symbol_info_tick : String → Option TickInfo
  symbol_select : String → Bool → Bool
  positions_get_all : Option (List Position)
  positions_get_ticket : Int → List Position
  orders_get : Option (List PendingOrder)
  order_send : OrderReqD → Option OrderResult
  copy_rates_range : String → Int → Int → Int → Option (List RawBar)
  copy_rates_from_pos : String → Int → Int → Int → Option (List RawBar)
  symbols_get : Option (List SymEntry)

/-- One vendor call, recorded in order in every handler's trace. -/
inductive ConnCall where
  | initCall (pathIdx : Nat)
  | loginCall (login : Int) (server : String)
  | terminalInfo
  | accountInfo
  | lastError
  | symbolInfo (symbol : String)
  | symbolInfoTick (symbol : String)
  | symbolSelect (symbol : String) (visible : Bool)
  | positionsGetAll
  | positionsGetTicket (ticket : Int)
  | ordersGet
  | orderSend (req : OrderReqD)
  | copyRatesRange (symbol : String) (tf : Int) (start fin : Int)
  | copyRatesFromPos (symbol : String) (tf : Int) (pos count : Int)
  | symbolsGet
deriving DecidableEq

/-- Is a call an `order_send`? -/
def isOrderSend : ConnCall → Bool
  | .orderSend _ => true
  | _ => false

/-- Is a call a quote lookup (`symbol_info_tick`)? -/
def isTickCall : ConnCall → Bool
  | .symbolInfoTick _ => true
  | _ => false

/-- Extract the request of an `order_send` call. -/
def sendArg : ConnCall → Option OrderReqD
  | .orderSend r => some r
  | _ => none

/-- The startup/connect path loop: try `paths_to_try` indices in order until
one `mt5.initialize` call succeeds. -/
def tryInit (conn : MT5Conn) : List Nat → Bool × List ConnCall
  | [] => (false, [])
  | i :: rest =>
      if conn.initPath i then (true, [.initCall i])
      else
        let r := tryInit conn rest
        (r.1, .initCall i :: r.2)

/-- Substring test, for `"live" in credentials.server.lower()`. -/
def containsSubstr (s pat : String) : Bool :=
  decide (pat.toList <:+: s.toList)

/-! ## Request models (the pydantic classes) -/

/-- `MT5Credentials`. -/
structure MT5Credentials where
  login : Int
  password : String
  server : String
deriving DecidableEq

/-- `SessionRequest`. -/
structure SessionRequest where
  session_id : String
deriving DecidableEq

/-- `SymbolPriceRequest`. -/
structure SymbolPriceRequest where
  session_id : String
  symbol : String
deriving DecidableEq

/-- `OrderRequest` (`comment` keeps its pydantic default "API Order"). -/
structure OrderRequest where
  session_id : String
  symbol : String
  otype : Int
  volume : Rat
  price : Option Rat
  sl : Option Rat
  tp : Option Rat
  comment : String
deriving DecidableEq

/-- `ClosePositionRequest`. -/
structure ClosePositionRequest where
  session_id : String
  ticket : Int
deriving DecidableEq

/-- `HistoricalDataRequest`. -/
structure HistoricalDataRequest where
  session_id : String
  symbol : String
  timeframe : Int
  count : Option Int
  start_time : Option String
  end_time : Option String
deriving DecidableEq

/-! ## Handlers.  Each session-checked handler is the invalid-session guard
followed by a pure body; the body never touches the session table, exactly as
in the source, where the `last_activity` write precedes every vendor call. -/

/-- Session id generation (`src/mt5_bridge.py:182`):
`f"mt5_{int(time.time())}_{credentials.login}"`. -/
def mkSessionId (epochNow : Int) (login : Int) : String :=
  "mt5_" ++ toString epochNow ++ "_" ++ toString login

/-- `POST /mt5/connect` (`src/mt5_bridge.py:149-211`). -/
def connect_to_mt5 (conn : MT5Conn) (epochNow : Int) (nowIso : String)
    (st : Sessions) (cred : MT5Credentials) : Sessions × JVal × List ConnCall :=
  let ir := tryInit conn [0, 1, 2, 3, 4]
  if ir.1 = false then
    (st, errEnvelope "Failed to initialize MT5. Make sure MetaTrader 5 terminal is running and installed correctly.", ir.2)
  else
    let t1 := ir.2 ++ [ConnCall.terminalInfo, ConnCall.loginCall cred.login cred.server]
    if conn.login cred.login cred.password cred.server = false then
      (st, errEnvelope ("Login failed: " ++ lastErrMsg conn.last_error "Unknown error"),
        t1 ++ [ConnCall.lastError])
    else
      match conn.account_info with
      | none => (st, errEnvelope "Failed to get account information", t1 ++ [ConnCall.accountInfo])
      | some ai =>
          let sid := mkSessionId epochNow cred.login
          let st2 := sessionsSet st sid
            { login := cred.login, server := cred.server,
              connected_at := nowIso, last_activity := nowIso }
          (st2,
           .obj [("success", .bool true),
                 ("session_id", .str sid),
                 ("account_info", .obj
                   [("login", .int ai.login), ("server", .str ai.server),
                    ("balance", .rat ai.balance), ("equity", .rat ai.equity),
                    ("margin", .rat ai.margin), ("free_margin", .rat ai.margin_free),
                    ("margin_level", .rat ai.margin_level), ("currency", .str ai.currency),
                    ("leverage", .int ai.leverage), ("company", .str ai.company),
                    ("connected", .bool true),
                    ("mode", .str (if containsSubstr cred.server.toLower "live" then "LIVE" else "DEMO"))])],
           t1 ++ [ConnCall.accountInfo])

/-- One entry of `positions_data` (`src/mt5_bridge.py:226-238`). -/
def positionJ (p : Position) : JVal :=
  .obj [("ticket", .int p.ticket), ("symbol", .str p.symbol), ("type", .int p.ptype),
        ("volume", .rat p.volume), ("price_open", .rat p.price_open), ("sl", .rat p.sl),
        ("tp", .rat p.tp), ("profit", .rat p.profit), ("comment", .str p.comment)]

/-- One entry of `orders_data` (`src/mt5_bridge.py:240-252`). -/
def pendingOrderJ (o : PendingOrder) : JVal :=
  .obj [("ticket", .int o.ticket), ("symbol", .str o.symbol), ("type", .int o.otype),
        ("volume", .rat o.volume_initial), ("price_open", .rat o.price_open),
        ("sl", .rat o.sl), ("tp", .rat o.tp), ("comment", .str o.comment)]

/-- Body of `POST /mt5/account_info` after the session guard. -/
def accountInfoBody (conn : MT5Conn) : JVal × List ConnCall :=
  match conn.account_info with
  | none => (errEnvelope "Failed to get account information", [ConnCall.accountInfo])
  | some ai =>
      let positions := conn.positions_get_all.getD []
      let orders := conn.orders_get.getD []
      (dataEnvelope (.obj
        [("login", .int ai.login), ("balance", .rat ai.balance), ("equity", .rat ai.equity),
         ("margin", .rat ai.margin), ("free_margin", .rat ai.margin_free),
         ("margin_level", .rat ai.margin_level), ("currency", .str ai.currency),
         ("leverage", .int ai.leverage), ("connected", .bool true),
         ("positions", .list (positions.map positionJ)),
         ("orders", .list (orders.map pendingOrderJ)),
         ("mode", .str "LIVE")]),
       [ConnCall.accountInfo, ConnCall.positionsGetAll, ConnCall.ordersGet])

/-- `POST /mt5/account_info` (`src/mt5_bridge.py:213-273`). -/
def get_account_info (conn : MT5Conn) (nowIso : String) (st : Sessions)
    (req : SessionRequest) : Sessions × JVal × List ConnCall :=
  if sessionsContains st req.session_id = false then (st, invalidSessionEnv, [])
  else
    let b := accountInfoBody conn
    (touchSession st req.session_id nowIso, b.1, b.2)

/-- Body of `POST /mt5/symbol_price` after the session guard. -/
def symbolPriceBody (conn : MT5Conn) (nowIso : String) (symbol : String) :
    JVal × List ConnCall :=
  match conn.symbol_info symbol with
  | none => (errEnvelope ("Symbol " ++ symbol ++ " not found"), [ConnCall.symbolInfo symbol])
  | some si =>
      let selTrace := if si.visible = false then [ConnCall.symbolSelect symbol true] else []
      match conn.symbol_info_tick symbol with
      | none =>
          (errEnvelope ("Failed to get current price for " ++ symbol),
           [ConnCall.symbolInfo symbol] ++ selTrace ++ [ConnCall.symbolInfoTick symbol])
      | some t =>
          (dataEnvelope (.obj [("symbol", .str symbol), ("bid", .rat t.bid),
                               ("ask", .rat t.ask), ("time", .str nowIso)]),
           [ConnCall.symbolInfo symbol] ++ selTrace ++ [ConnCall.symbolInfoTick symbol])

/-- `POST /mt5/symbol_price` (`src/mt5_bridge.py:275-297`). -/
def get_symbol_price (conn : MT5Conn) (nowIso : String) (st : Sessions)
    (req : SymbolPriceRequest) : Sessions × JVal × List ConnCall :=
  if sessionsContains st req.session_id = false then (st, invalidSessionEnv, [])
  else
    let b := symbolPriceBody conn nowIso req.symbol
    (touchSession st req.session_id nowIso, b.1, b.2)

/-- Body of `POST /mt5/place_order` after the session guard
(`src/mt5_bridge.py:306-371`). -/
def placeOrderBody (conn : MT5Conn) (nowIso : String) (order : OrderRequest) :
    JVal × List ConnCall :=
  match conn.terminal_info with
  | none => (errEnvelope "MT5 terminal not connected", [ConnCall.terminalInfo])
  | some ti =>
      if ti.connected = false then
        (errEnvelope "MT5 not connected to broker", [ConnCall.terminalInfo])
      else
        match conn.symbol_info order.symbol with
        | none =>
            (errEnvelope ("Symbol " ++ order.symbol ++ " not found"),
             [ConnCall.terminalInfo, ConnCall.symbolInfo order.symbol])
        | some _si =>
            match conn.symbol_info_tick order.symbol with
            | none =>
                (errEnvelope ("Failed to get current price for " ++ order.symbol),
                 [ConnCall.terminalInfo, ConnCall.symbolInfo order.symbol,
                  ConnCall.symbolInfoTick order.symbol])
            | some tick =>
                let order_type := if order.otype = 0 then ORDER_TYPE_BUY else ORDER_TYPE_SELL
                let price := if order.otype = 0 then pyOrRat order.price tick.ask
                             else pyOrRat order.price tick.bid
                let rd : OrderReqD :=
                  { action := TRADE_ACTION_DEAL, symbol := order.symbol,
                    volume := order.volume, otype := order_type, price := price,
                    sl := pyOrRat order.sl 0, tp := pyOrRat order.tp 0,
                    deviation := 20, magic := 12345, comment := order.comment,
                    type_time := ORDER_TIME_GTC, type_filling := ORDER_FILLING_FOK,
                    position := none }
                let base := [ConnCall.terminalInfo, ConnCall.symbolInfo order.symbol,
                             ConnCall.symbolInfoTick order.symbol, ConnCall.orderSend rd]
                match conn.order_send rd with
                | none =>
                    (errEnvelope ("Order send failed: " ++ lastErrMsg conn.last_error "Unknown error"),
                     base ++ [ConnCall.lastError])
                | some res =>
                    if res.retcode ≠ TRADE_RETCODE_DONE then
                      (errEnvelope ("Order failed: " ++ res.comment), base)
                    else
                      (dataEnvelope (.obj
                        [("ticket", .int res.order), ("symbol", .str order.symbol),
                         ("type", .int order.otype), ("volume", .rat order.volume),
                         ("price", .rat res.price), ("sl", .rat (pyOrRat order.sl 0)),
                         ("tp", .rat (pyOrRat order.tp 0)), ("comment", .str order.comment),
                         ("time", .str nowIso), ("mode", .str "LIVE")]),
                       base)

/-- `POST /mt5/place_order` (`src/mt5_bridge.py:299-377`). -/
def place_order (conn : MT5Conn) (nowIso : String) (st : Sessions)
    (order : OrderRequest) : Sessions × JVal × List ConnCall :=
  if sessionsContains st order.session_id = false then (st, invalidSessionEnv, [])
  else
    let b := placeOrderBody conn nowIso order
    (touchSession st order.session_id nowIso, b.1, b.2)

/-- Body of `POST /mt5/close_position` after the session guard
(`src/mt5_bridge.py:386-429`). -/
def closePositionBody (conn : MT5Conn) (nowIso : String) (req : ClosePositionRequest) :
    JVal × List ConnCall :=
  match conn.positions_get_ticket req.ticket with
  | [] =>
      (errEnvelope ("Position " ++ toString req.ticket ++ " not found"),
       [ConnCall.positionsGetTicket req.ticket])
  | pos :: _ =>
      match conn.symbol_info_tick pos.symbol with
      | none =>
          (errEnvelope ("Failed to get current price for " ++ pos.symbol),
           [ConnCall.positionsGetTicket req.ticket, ConnCall.symbolInfoTick pos.symbol])
      | some tick =>
          let order_type := if pos.ptype = POSITION_TYPE_BUY then ORDER_TYPE_SELL else ORDER_TYPE_BUY
          let price := if pos.ptype = POSITION_TYPE_BUY then tick.bid else tick.ask
          let rd : OrderReqD :=
            { action := TRADE_ACTION_DEAL, symbol := pos.symbol, volume := pos.volume,
              otype := order_type, price := price, sl := 0, tp := 0,
              deviation := 20, magic := 12345, comment := "Close by API",
              type_time := ORDER_TIME_GTC, type_filling := ORDER_FILLING_FOK,
              position := some pos.ticket }
          let base := [ConnCall.positionsGetTicket req.ticket,
                       ConnCall.symbolInfoTick pos.symbol, ConnCall.orderSend rd]
          match conn.order_send rd with
          | none =>
              (errEnvelope ("Close order send failed: " ++ lastErrMsg conn.last_error "Unknown error"),
               base ++ [ConnCall.lastError])
          | some res =>
              if res.retcode ≠ TRADE_RETCODE_DONE then
                (errEnvelope ("Close failed: " ++ res.comment), base)
              else
                (dataEnvelope (.obj
                  [("ticket", .int pos.ticket), ("closed", .bool true),
                   ("price", .rat res.price), ("time", .str nowIso)]),
                 base)

/-- `POST /mt5/close_position` (`src/mt5_bridge.py:379-433`). -/
def close_position (conn : MT5Conn) (nowIso : String) (st : Sessions)
    (req : ClosePositionRequest) : Sessions × JVal × List ConnCall :=
  if sessionsContains st req.session_id = false then (st, invalidSessionEnv, [])
  else
    let b := closePositionBody conn nowIso req
    (touchSession st req.session_id nowIso, b.1, b.2)

/-- Body of `POST /mt5/server_time` after the session guard
(`src/mt5_bridge.py:655-674`).  When both `terminal_info` checks pass, the
success dict at line 667-674 evaluates the undefined local name `server_time`
(only `server_timestamp` / `server_datetime` are defined there), so the
handler raises `NameError`, which the `except` at line 675 converts into the
failure envelope below; the success return is unreachable. -/
def serverTimeBody (conn : MT5Conn) : JVal × List ConnCall :=
  match conn.terminal_info with
  | none => (errEnvelope "Failed to get server time", [ConnCall.terminalInfo])
  | some ti =>
      match ti.server_time with
      | none => (errEnvelope "Failed to get server time", [ConnCall.terminalInfo])
      | some _ts =>
          (errEnvelope ("Failed to get server time: name " ++ sq ++ "server_time" ++ sq ++ " is not defined"),
           [ConnCall.terminalInfo, ConnCall.terminalInfo])

/-- `POST /mt5/server_time` (`src/mt5_bridge.py:648-677`). -/
def get_server_time (conn : MT5Conn) (nowIso : String) (st : Sessions)
    (req : SessionRequest) : Sessions × JVal × List ConnCall :=
  if sessionsContains st req.session_id = false then (st, invalidSessionEnv, [])
  else
    let b := serverTimeBody conn
    (touchSession st req.session_id nowIso, b.1, b.2)

/-- One entry of `symbol_list` (`src/mt5_bridge.py:712`). -/
def symEntryJ (s : SymEntry) : JVal :=
  .obj [("name", .str s.name), ("description", .str s.description), ("path", .str s.path)]

/-- The `symbols_get` tail of `POST /mt5/symbols` (`src/mt5_bridge.py:707-713`). -/
def symbolsFetch (conn : MT5Conn) : JVal × List ConnCall :=
  match conn.symbols_get with
  | none => (errEnvelope "Failed to get symbols", [ConnCall.symbolsGet])
  | some l =>
      (.obj [("success", .bool true),
             ("symbols", .list (l.map symEntryJ)),
             ("total", .int l.length)],
       [ConnCall.symbolsGet])

/-- Body of `POST /mt5/symbols` after the session guard
(`src/mt5_bridge.py:686-713`): reconnect attempt when the terminal is down,
then list all symbols. -/
def symbolsBody (conn : MT5Conn) : JVal × List ConnCall :=
  let down := match conn.terminal_info with
    | none => true
    | some ti => ti.connected = false
  if down then
    let ir := tryInit conn [0, 1, 2, 3, 4]
    if ir.1 = false then
      (errEnvelope "MT5 connection lost and failed to reconnect", ConnCall.terminalInfo :: ir.2)
    else
      let r := symbolsFetch conn
      (r.1, (ConnCall.terminalInfo :: ir.2) ++ r.2)
  else
    let r := symbolsFetch conn
    (r.1, ConnCall.terminalInfo :: r.2)

/-- `POST /mt5/symbols` (`src/mt5_bridge.py:679-716`). -/
def get_symbols (conn : MT5Conn) (nowIso : String) (st : Sessions)
    (req : SessionRequest) : Sessions × JVal × List ConnCall :=
  if sessionsContains st req.session_id = false then (st, invalidSessionEnv, [])
  else
    let b := symbolsBody conn
    (touchSession st req.session_id nowIso, b.1, b.2)

/-! ## Historical data (`src/mt5_bridge.py:436-646`) -/

/-- Python `repr` of a string (single-quoted). -/
def pyStrRepr (s : String) : String := sq ++ s ++ sq

/-- Python `str` of a list of strings, as interpolated into f-strings. -/
def pyListRepr (l : List String) : String :=
  "[" ++ String.intercalate ", " (l.map pyStrRepr) ++ "]"

/-- Did a rates fetch produce a non-empty result (`rates is not None and len(rates) > 0`)? -/
def ratesNonempty : Option (List RawBar) → Bool
  | some l => l.isEmpty = false
  | none => false

/-- Lookback window for the `>= H1` branch (`src/mt5_bridge.py:505-510`):
7 days for H1, 14 for H4, 30 otherwise. -/
def h1DaysBack (tf : Int) : Int :=
  if tf = TIMEFRAME_H1 then 7 else if tf = TIMEFRAME_H4 then 14 else 30

/-- Fallback bar counts for the `>= H1` branch (`src/mt5_bridge.py:521`). -/
def h1CountOptions : List Int := [10, 5, 3, 2, 1]

/-- Bar counts for the XAU branch (`src/mt5_bridge.py:561-567`), keyed on the
raw request timeframe. -/
def xauCountOptions (tfRaw : Int) : List Int :=
  if tfRaw = 60 then [5, 3, 2, 1]
  else if tfRaw = 240 then [5, 3, 2, 1]
  else [500, 200, 100, 50]

/-- Fallback lookback window for the XAU branch (`src/mt5_bridge.py:585`). -/
def xauDaysBack (tfRaw : Int) : Int := if 240 ≤ tfRaw then 7 else 3

/-- The progressive-count loop (`src/mt5_bridge.py:523-532` and `569-578`):
try `copy_rates_from_pos` with each count in turn, reading `last_error` after
each failure; stop at the first non-empty result. -/
def tryCountsFrom (conn : MT5Conn) (sym : String) (tf : Int) :
    List Int → Option (List RawBar) × List ConnCall
  | [] => (none, [])
  | c :: rest =>
      match conn.copy_rates_from_pos sym tf 0 c with
      | some l =>
          if l.isEmpty = false then (some l, [ConnCall.copyRatesFromPos sym tf 0 c])
          else
            let r := tryCountsFrom conn sym tf rest
            (r.1, ConnCall.copyRatesFromPos sym tf 0 c :: ConnCall.lastError :: r.2)
      | none =>
          let r := tryCountsFrom conn sym tf rest
          (r.1, ConnCall.copyRatesFromPos sym tf 0 c :: ConnCall.lastError :: r.2)

/-- Final failure message of the `>= H1` branch (`src/mt5_bridge.py:538-539`). -/
def h1FailMsg (conn : MT5Conn) (sym : String) : String :=
  (if sym.startsWith "XAU" then "Gold (XAU)" else "Forex") ++
    " data not available for higher timeframes. Please: 1) Ensure MT5 is connected to a live forex broker account, 2) Check MT5 Market Watch for " ++
    sym ++ ", 3) Verify broker offers " ++ sym ++ " trading. Error: " ++
    lastErrMsg conn.last_error "Unknown"

/-- Final failure message of the XAU branch (`src/mt5_bridge.py:595`). -/
def xauFailMsg (conn : MT5Conn) : String :=
  "Gold (XAU) data not available. Please: 1) Contact Exness support to enable gold trading for your account, 2) Check MT5 Market Watch for XAU symbols, 3) Ensure MT5 is connected to live market data. Error: " ++
    lastErrMsg conn.last_error "Unknown"

/-- Count-loop tail of the `>= H1` branch (`src/mt5_bridge.py:519-539`). -/
def histH1Counts (conn : MT5Conn) (sym : String) (tf : Int) :
    Except JVal (Option (List RawBar)) × List ConnCall :=
  let cr := tryCountsFrom conn sym tf h1CountOptions
  match cr.1 with
  | some l => (.ok (some l), cr.2)
  | none => (.error (errEnvelope (h1FailMsg conn sym)), cr.2 ++ [ConnCall.lastError])

/-- The `mt5_timeframe >= TIMEFRAME_H1` branch (`src/mt5_bridge.py:485-539`):
re-check the symbol, try a short `copy_rates_range` window, then fall back to
progressively smaller `copy_rates_from_pos` counts.  Note that the caller's
`count`/`start_time`/`end_time` are not parameters: the branch never reads
them. -/
def histH1Branch (conn : MT5Conn) (sym : String) (tf : Int) (endT : Int) :
    Except JVal (Option (List RawBar)) × List ConnCall :=
  match conn.symbol_info sym with
  | none =>
      let all := conn.symbols_get.getD []
      let similar := (all.filter (fun s => containsSubstr s.name.toUpper sym.toUpper)).map SymEntry.name
      (.error (errEnvelope ("Symbol " ++ sym ++ " not available. Available similar symbols: " ++
         pyListRepr similar ++ ". Ensure MT5 is connected to a forex broker.")),
       [ConnCall.symbolInfo sym, ConnCall.symbolsGet])
  | some si =>
      let selTrace := if si.visible = false then [ConnCall.symbolSelect sym true] else []
      let start := endT - h1DaysBack tf * 86400
      let r1 := conn.copy_rates_range sym tf start endT
      let pre := [ConnCall.symbolInfo sym] ++ selTrace ++ [ConnCall.copyRatesRange sym tf start endT]
      if ratesNonempty r1 then (.ok r1, pre)
      else
        let cc := histH1Counts conn sym tf
        (cc.1, pre ++ cc.2)

/-- The `symbol.startswith('XAU')` branch for sub-H1 timeframes
(`src/mt5_bridge.py:540-595`): progressive `copy_rates_from_pos` counts keyed
on the raw request timeframe, then one short `copy_rates_range` window as a
fallback.  The caller's `count`/`start_time`/`end_time` are never read. -/
def histXauBranch (conn : MT5Conn) (sym : String) (tfRaw : Int) (nowEpoch : Int) :
    Except JVal (Option (List RawBar)) × List ConnCall :=
  match conn.symbol_info sym with
  | none =>
      let all := conn.symbols_get.getD []
      let gold := ((all.filter (fun s => s.name.toUpper.startsWith "XAU")).map SymEntry.name)
      (.error (errEnvelope ("Symbol " ++ sym ++ " not available. Available XAU symbols: " ++
         pyListRepr gold ++ ". Contact Exness to enable gold trading.")),
       [ConnCall.symbolInfo sym, ConnCall.symbolsGet])
  | some si =>
      let selTrace := if si.visible = false then [ConnCall.symbolSelect sym true] else []
      let cr := tryCountsFrom conn sym tfRaw (xauCountOptions tfRaw)
      let pre := [ConnCall.symbolInfo sym] ++ selTrace ++ cr.2
      match cr.1 with
      | some l => (.ok (some l), pre)
      | none =>
          let start := nowEpoch - xauDaysBack tfRaw * 86400
          let r2 := conn.copy_rates_range sym tfRaw start nowEpoch
          let t2 := pre ++ [ConnCall.copyRatesRange sym tfRaw start nowEpoch]
          if ratesNonempty r2 then (.ok r2, t2)
          else (.error (errEnvelope (xauFailMsg conn)), t2 ++ [ConnCall.lastError])

/-- The explicit `start_time`/`end_time` branch (`src/mt5_bridge.py:596-610`).
`parseIso` abstracts `datetime.fromisoformat`; a parse failure raises
`ValueError`, converted by the handler's `except` into the failure envelope. -/
def histRangeBranch (conn : MT5Conn) (parseIso : String → Option Int)
    (sym : String) (tfRaw : Int) (startS endS : String) :
    Except JVal (Option (List RawBar)) × List ConnCall :=
  match parseIso startS with
  | none =>
      (.error (errEnvelope ("Failed to get historical data: Invalid isoformat string: " ++ pyStrRepr startS)), [])
  | some a =>
      match parseIso endS with
      | none =>
          (.error (errEnvelope ("Failed to get historical data: Invalid isoformat string: " ++ pyStrRepr endS)), [])
      | some b =>
          match conn.copy_rates_range sym tfRaw a b with
          | none =>
              if 60 ≤ tfRaw then
                (.ok (conn.copy_rates_from_pos sym tfRaw 0 1000),
                 [ConnCall.copyRatesRange sym tfRaw a b, ConnCall.copyRatesFromPos sym tfRaw 0 1000])
              else (.ok none, [ConnCall.copyRatesRange sym tfRaw a b])
          | some l => (.ok (some l), [ConnCall.copyRatesRange sym tfRaw a b])

/-- Branch dispatch of the fetch (`src/mt5_bridge.py:485-615`). -/
def histFetch (conn : MT5Conn) (parseIso : String → Option Int) (nowEpoch : Int)
    (endT : Int) (req : HistoricalDataRequest) :
    Except JVal (Option (List RawBar)) × List ConnCall :=
  let tf := timeframeMapping req.timeframe
  if TIMEFRAME_H1 ≤ tf then histH1Branch conn req.symbol tf endT
  else if req.symbol.startsWith "XAU" then
    histXauBranch conn req.symbol req.timeframe nowEpoch
  else if truthyS req.start_time && truthyS req.end_time then
    histRangeBranch conn parseIso req.symbol req.timeframe
      (req.start_time.getD "") (req.end_time.getD "")
  else if truthyI req.count then
    (.ok (conn.copy_rates_from_pos req.symbol req.timeframe 0 (req.count.getD 0)),
     [ConnCall.copyRatesFromPos req.symbol req.timeframe 0 (req.count.getD 0)])
  else (.error (errEnvelope "Must provide either count or start_time and end_time"), [])

/-- Bar normalization (`src/mt5_bridge.py:627-638`): each raw bar becomes a
dict with exactly these 8 keys. -/
def mkBar (b : RawBar) : JVal :=
  .obj [("time", .int b.r0), ("open", .rat b.r1), ("high", .rat b.r2),
        ("low", .rat b.r3), ("close", .rat b.r4), ("tick_volume", .int b.r5),
        ("spread", .int b.r6), ("real_volume", .int b.r7)]

/-- Shared tail (`src/mt5_bridge.py:617-640`): `None` rates fail with the
vendor's last error, empty rates fail with a no-data message, otherwise the
bars are normalized and wrapped in the success envelope. -/
def histFinish (conn : MT5Conn) (sym : String) (tfRaw : Int) :
    Option (List RawBar) → JVal × List ConnCall
  | none =>
      (errEnvelope ("MT5 data fetch failed: " ++ lastErrMsg conn.last_error "Unknown error"),
       [ConnCall.lastError])
  | some l =>
      if l.isEmpty then
        (errEnvelope ("No historical data available for " ++ sym ++ " timeframe " ++ toString tfRaw), [])
      else
        (dataEnvelope (.obj
          [("symbol", .str sym), ("timeframe", .int tfRaw),
           ("count", .int l.length), ("bars", .list (l.map mkBar))]), [])

/-- Body of `POST /mt5/historical_data` after the session guard. -/
def histBody (conn : MT5Conn) (parseIso : String → Option Int) (nowEpoch : Int)
    (req : HistoricalDataRequest) : JVal × List ConnCall :=
  match conn.symbol_info req.symbol with
  | none =>
      let all := conn.symbols_get.getD []
      let available := (all.take 50).map SymEntry.name
      let similar := available.filter (fun s =>
        containsSubstr s.toUpper req.symbol.toUpper || containsSubstr req.symbol.toUpper s.toUpper)
      (errEnvelope ("Symbol " ++ req.symbol ++ " not found in MT5. Similar/available: " ++
         pyListRepr (similar.take 10)),
       [ConnCall.symbolInfo req.symbol, ConnCall.symbolsGet])
  | some _si =>
      if conn.symbol_select req.symbol true = false then
        (errEnvelope ("Failed to select symbol " ++ req.symbol),
         [ConnCall.symbolInfo req.symbol, ConnCall.symbolSelect req.symbol true])
      else
        let endT := match conn.terminal_info with
          | some ti => match ti.server_time with | some t => t | none => nowEpoch
          | none => nowEpoch
        let pre := [ConnCall.symbolInfo req.symbol, ConnCall.symbolSelect req.symbol true,
                    ConnCall.terminalInfo]
        let fr := histFetch conn parseIso nowEpoch endT req
        match fr.1 with
        | .error env => (env, pre ++ fr.2)
        | .ok rates =>
            let fin := histFinish conn req.symbol req.timeframe rates
            (fin.1, pre ++ fr.2 ++ fin.2)

/-- `POST /mt5/historical_data` (`src/mt5_bridge.py:436-646`). -/
def get_historical_data (conn : MT5Conn) (parseIso : String → Option Int)
    (nowIso : String) (nowEpoch : Int) (st : Sessions) (req : HistoricalDataRequest) :
    Sessions × JVal × List ConnCall :=
  if sessionsContains st req.session_id = false then (st, invalidSessionEnv, [])
  else
    let b := histBody conn parseIso nowEpoch req
    (touchSession st req.session_id nowIso, b.1, b.2)

/-! ## Calendar ingestion (`src/scripts/ingest_economic_calendar.py`)

The script is modelled past its environment/auth preamble (missing env vars
or an auth failure exit with status 1 before any line is read).  JSON field
values are modelled as strings; `parseDate` abstracts `parse_event_date`'s
`datetime.strptime` attempts over the five accepted formats (`none` models
"no format matched"); `insert` abstracts the Supabase row insert. -/

/-- The `affected_pairs` value of a JSON event: absent / a string / a list. -/
inductive PairsVal where
  | absent
  | pstr (s : String)
  | plist (l : List String)
deriving DecidableEq

/-- One successfully JSON-parsed event record (field values as strings;
`none` models a missing key). -/
structure EventData where
  event_name : Option String
  name : Option String
  event_date : Option String
  date : Option String
  time : Option String
  currency : Option String
  impact : Option String
  forecast : Option String
  previous : Option String
  actual : Option String
  source : Option String
  description : Option String
  affected_pairs : PairsVal
deriving DecidableEq

/-- Python `a or b` on optional strings (`None` and `""` are falsy). -/
def pyOrS (a b : Option String) : Option String :=
  match a with
  | some s => if s = "" then b else some s
  | none => b

/-- `validate_impact` (`ingest_economic_calendar.py:47-53`). -/
def validate_impact (impact : String) : String :=
  let u := if impact = "" then "LOW" else impact.toUpper
  if u = "LOW" ∨ u = "MEDIUM" ∨ u = "HIGH" then u else "LOW"

/-- `parse_affected_pairs` (`ingest_economic_calendar.py:55-66`). -/
def parse_affected_pairs (v : PairsVal) : List String :=
  match v with
  | .absent => []
  | .plist l => l
  | .pstr s =>
      if s = "" then []
      else (s.splitOn ",").filterMap (fun p =>
        if p.trim = "" then none else some ((p.trim).replace "/" ""))

/-- The normalized row handed to the table insert (`process_event`'s return
dict; `event_date` holds the parsed timestamp whose `isoformat` the source
stores; the `user_id` added after processing carries no information here). -/
structure Row where
  event_name : String
  event_date : Int
  currency : String
  impact : String
  forecast : String
  previous : String
  actual : String
  source : String
  description : String
  affected_pairs : List String
deriving DecidableEq

/-- `process_event` (`ingest_economic_calendar.py:68-113`): `none` models the
skip paths (missing name, missing date, unparseable date). -/
def process_event (parseDate : String → Option Int) (e : EventData) : Option Row :=
  let ename := pyOrS e.event_name e.name
  if truthyS ename = false then none
  else
    let edate := pyOrS (pyOrS e.event_date e.date) e.time
    if truthyS edate = false then none
    else
      match parseDate (edate.getD "") with
      | none => none
      | some d =>
          some
            { event_name := ename.getD "",
              event_date := d,
              currency := e.currency.getD "",
              impact := validate_impact (e.impact.getD "LOW"),
              forecast := e.forecast.getD "",
              previous := e.previous.getD "",
              actual := e.actual.getD "",
              source := e.source.getD "API",
              description := e.description.getD "",
              affected_pairs := parse_affected_pairs e.affected_pairs }

/-- One line of stdin after `strip()`: blank (skipped), malformed JSON
(`json.loads` raises), or a parsed event. -/
inductive LineItem where
  | blank
  | badJson
  | jsonEvent (e : EventData)
deriving DecidableEq

/-- Outcome of `supabase.table('calendar_events').insert(row).execute()`:
a result with truthy `data`, a result with falsy `data`, or a raised
exception. -/
inductive InsertOutcome where
  | okData
  | okNoData
  | dbError
deriving DecidableEq

/-- Final state of one ingest run. -/
structure IngestResult where
  processed : Nat
  inserted : Nat
  errors : Nat
  exitCode : Nat
deriving DecidableEq

/-- One iteration of the stdin loop (`ingest_economic_calendar.py:133-172`),
acting on `(processed, inserted, errors)`. -/
def ingestStep (parseDate : String → Option Int) (insert : Row → InsertOutcome)
    (acc : Nat × Nat × Nat) (item : LineItem) : Nat × Nat × Nat :=
  match item with
  | .blank => acc
  | .badJson => (acc.1, acc.2.1, acc.2.2 + 1)
  | .jsonEvent e =>
      match process_event parseDate e with
      | none => (acc.1 + 1, acc.2.1, acc.2.2 + 1)
      | some row =>
          match insert row with
          | .okData => (acc.1 + 1, acc.2.1 + 1, acc.2.2)
          | .okNoData => (acc.1 + 1, acc.2.1, acc.2.2 + 1)
          | .dbError => (acc.1 + 1, acc.2.1, acc.2.2 + 1)

/-- `ingest_events` (`ingest_economic_calendar.py:115-184`): fold the loop
over the whole stream, then exit 1 when nothing was inserted and 0 otherwise. -/
def ingest_events (parseDate : String → Option Int) (insert : Row → InsertOutcome)
    (lines : List LineItem) : IngestResult :=
  let acc := lines.foldl (ingestStep parseDate insert) (0, 0, 0)
  { processed := acc.1, inserted := acc.2.1, errors := acc.2.2,
    exitCode := if 0 < acc.2.1 then 0 else 1 }

/-- Does a line count toward `processed` (it JSON-parsed)? -/
def isJsonLine : LineItem → Bool
  | .jsonEvent _ => true
  | _ => false

/-- Does a line end in the `inserted` tally? -/
def lineInserts (parseDate : String → Option Int) (insert : Row → InsertOutcome) :
    LineItem → Bool
  | .jsonEvent e =>
      match process_event parseDate e with
      | some row => insert row = InsertOutcome.okData
      | none => false
  | _ => false

/-- Does a line end in the `errors` tally (malformed JSON, rejected event,
failed insert)? -/
def lineFails (parseDate : String → Option Int) (insert : Row → InsertOutcome) :
    LineItem → Bool
  | .badJson => true
  | .jsonEvent e =>
      match process_event parseDate e with
      | some row => insert row ≠ InsertOutcome.okData
      | none => true
  | .blank => false

/-! ## Shared lemmas about the session registry -/

/-- Setting a key makes it present. -/
lemma sessionsContains_sessionsSet (st : Sessions) (sid : String) (v : Session) :
    sessionsContains (sessionsSet st sid v) sid = true := by
  induction st with
  | nil => simp [sessionsSet, sessionsContains]
  | cons p rest ih =>
      obtain ⟨k, w⟩ := p
      by_cases hk : k = sid
      · simp [sessionsSet, hk, sessionsContains]
      · simp only [sessionsSet, if_neg hk]
        simp [sessionsContains, hk] at ih ⊢
        exact ih

/-- Looking up a freshly set key returns the stored record. -/
lemma sessionsGet?_sessionsSet (st : Sessions) (sid : String) (v : Session) :
    sessionsGet? (sessionsSet st sid v) sid = some v := by
  induction st with
  | nil => simp [sessionsSet, sessionsGet?]
  | cons p rest ih =>
      obtain ⟨k, w⟩ := p
      by_cases hk : k = sid
      · simp [sessionsSet, hk, sessionsGet?]
      · simp only [sessionsSet, if_neg hk]
        simpa [sessionsGet?, List.find?_cons, hk] using ih

/-- A contained key has a lookup value. -/
lemma sessionsGet?_of_contains (st : Sessions) (sid : String)
    (h : sessionsContains st sid = true) : ∃ s, sessionsGet? st sid = some s := by
  induction st with
  | nil => simp [sessionsContains] at h
  | cons p rest ih =>
      obtain ⟨k, w⟩ := p
      by_cases hk : k = sid
      · exact ⟨w, by simp [sessionsGet?, List.find?_cons, hk]⟩
      · have h' : sessionsContains rest sid = true := by
          simpa [sessionsContains, hk] using h
        obtain ⟨s, hs⟩ := ih h'
        exact ⟨s, by simpa [sessionsGet?, List.find?_cons, hk] using hs⟩

/-- Touching a contained key stores the record with `last_activity` replaced. -/
lemma touchSession_updates (st : Sessions) (sid : String) (now : String)
    (h : sessionsContains st sid = true) :
    ∃ s, sessionsGet? st sid = some s ∧
      sessionsGet? (touchSession st sid now) sid = some { s with last_activity := now } := by
  obtain ⟨s, hs⟩ := sessionsGet?_of_contains st sid h
  refine ⟨s, hs, ?_⟩
  simp [touchSession, hs, sessionsGet?_sessionsSet]

/-! ## Claim C2 -/

/-- Claim C2: every session-requiring command (account_info, symbol_price,
place_order, close_position, historical_data, server_time, symbols) called
with a session id absent from the registry returns
`{success: false, error: "Invalid session ID"}`, leaves the registry
untouched, and performs no terminal-connector call (empty call trace). -/
theorem C2_invalid_session_rejected (conn : MT5Conn) (parseIso : String → Option Int)
    (nowIso : String) (nowEpoch : Int) (st : Sessions) (sid : String)
    (h : sessionsContains st sid = false) :
    (∀ req : SessionRequest, req.session_id = sid →
        get_account_info conn nowIso st req = (st, invalidSessionEnv, []) ∧
        get_server_time conn nowIso st req = (st, invalidSessionEnv, []) ∧
        get_symbols conn nowIso st req = (st, invalidSessionEnv, [])) ∧
    (∀ req : SymbolPriceRequest, req.session_id = sid →
        get_symbol_price conn nowIso st req = (st, invalidSessionEnv, [])) ∧
    (∀ ord : OrderRequest, ord.session_id = sid →
        place_order conn nowIso st ord = (st, invalidSessionEnv, [])) ∧
    (∀ req : ClosePositionRequest, req.session_id = sid →
        close_position conn nowIso st req = (st, invalidSessionEnv, [])) ∧
    (∀ req : HistoricalDataRequest, req.session_id = sid →
        get_historical_data conn parseIso nowIso nowEpoch st req = (st, invalidSessionEnv, [])) := by
  refine ⟨fun req hr => ?_, fun req hr => ?_, fun ord hr => ?_, fun req hr => ?_, fun req hr => ?_⟩
  · exact ⟨by simp [get_account_info, hr, h], by simp [get_server_time, hr, h],
      by simp [get_symbols, hr, h]⟩
  · simp [get_symbol_price, hr, h]
  · simp [place_order, hr, h]
  · simp [close_position, hr, h]
  · simp [get_historical_data, hr, h]

/-- A connector oracle on which every vendor call fails/returns nothing;
used to instantiate universally quantified theorems at a concrete input. -/
def trivConn : MT5Conn where
  initPath := fun _ => false
  login := fun _ _ _ => false
  terminal_info := none
  account_info := none
  last_error := none
  symbol_info := fun _ => none
  symbol_info_tick := fun _ => none
  symbol_select := fun _ _ => false
  positions_get_all := none
  positions_get_ticket := fun _ => []
  orders_get := none
  order_send := fun _ => none
  copy_rates_range := fun _ _ _ _ => none
  copy_rates_from_pos := fun _ _ _ _ => none
  symbols_get := none

/-- Witness for C2 at a concrete input: the empty registry does not contain
`"bad"`, and `account_info` with that id returns the invalid-session envelope
with no connector call. -/
theorem C2_invalid_session_rejected_witness :
    sessionsContains [] "bad" = false ∧
      get_account_info trivConn "T" [] ⟨"bad"⟩ = ([], invalidSessionEnv, []) :=
  ⟨by decide,
   ((C2_invalid_session_rejected trivConn (fun _ => none) "T" 0 [] "bad" (by decide)).1
      ⟨"bad"⟩ rfl).1⟩

/-! ## Claim C6 -/

/-- Claim C6: for every session-checked command whose session id passes
validation, the final session table equals the input table with that
session's `last_activity` set to the current time — for every connector
oracle, including any on which the subsequent vendor calls fail.  The
`last_activity` write therefore happens before (and regardless of) any
terminal-connector call. -/
theorem C6_last_activity_before_connector (conn : MT5Conn)
    (parseIso : String → Option Int) (nowIso : String) (nowEpoch : Int)
    (st : Sessions) (sid : String) (h : sessionsContains st sid = true) :
    (∀ req : SessionRequest, req.session_id = sid →
        (get_account_info conn nowIso st req).1 = touchSession st sid nowIso ∧
        (get_server_time conn nowIso st req).1 = touchSession st sid nowIso ∧
        (get_symbols conn nowIso st req).1 = touchSession st sid nowIso) ∧
    (∀ req : SymbolPriceRequest, req.session_id = sid →
        (get_symbol_price conn nowIso st req).1 = touchSession st sid nowIso) ∧
    (∀ ord : OrderRequest, ord.session_id = sid →
        (place_order conn nowIso st ord).1 = touchSession st sid nowIso) ∧
    (∀ req : ClosePositionRequest, req.session_id = sid →
        (close_position conn nowIso st req).1 = touchSession st sid nowIso) ∧
    (∀ req : HistoricalDataRequest, req.session_id = sid →
        (get_historical_data conn parseIso nowIso nowEpoch st req).1 = touchSession st sid nowIso) ∧
    (∃ s, sessionsGet? st sid = some s ∧
        sessionsGet? (touchSession st sid nowIso) sid = some { s with last_activity := nowIso }) := by
  refine ⟨fun req hr => ?_, fun req hr => ?_, fun ord hr => ?_, fun req hr => ?_,
    fun req hr => ?_, touchSession_updates st sid nowIso h⟩
  · exact ⟨by simp [get_account_info, hr, h], by simp [get_server_time, hr, h],
      by simp [get_symbols, hr, h]⟩
  · simp [get_symbol_price, hr, h]
  · simp [place_order, hr, h]
  · simp [close_position, hr, h]
  · simp [get_historical_data, hr, h]

/-- Witness for C6 at a concrete input: a one-session registry, a connector
on which every vendor call fails, and a `place_order` request; the session's
`last_activity` is still replaced by the current time. -/
theorem C6_last_activity_before_connector_witness :
    sessionsContains [("s1", ⟨7, "srv", "t0", "t0"⟩)] "s1" = true ∧
      (place_order trivConn "t1" [("s1", ⟨7, "srv", "t0", "t0"⟩)]
          ⟨"s1", "EURUSD", 0, 1, none, none, none, "API Order"⟩).1 =
        touchSession [("s1", ⟨7, "srv", "t0", "t0"⟩)] "s1" "t1" :=
  ⟨by decide,
   (C6_last_activity_before_connector trivConn (fun _ => none) "t1" 0
      [("s1", ⟨7, "srv", "t0", "t0"⟩)] "s1" (by decide)).2.2.1
     ⟨"s1", "EURUSD", 0, 1, none, none, none, "API Order"⟩ rfl⟩

/-! ## Claim C5 -/

/-- Claim C5: `close_position` with a valid session whose ticket matches no
open position returns `{success: false, error: "Position {ticket} not found"}`
(ticket interpolated), and its connector trace is exactly the single
`positions_get(ticket=...)` lookup — in particular it contains no
`symbol_info_tick` and no `order_send` call. -/
theorem C5_close_unknown_ticket (conn : MT5Conn) (nowIso : String) (st : Sessions)
    (req : ClosePositionRequest) (h : sessionsContains st req.session_id = true)
    (hpos : conn.positions_get_ticket req.ticket = []) :
    close_position conn nowIso st req =
      (touchSession st req.session_id nowIso,
       errEnvelope ("Position " ++ toString req.ticket ++ " not found"),
       [ConnCall.positionsGetTicket req.ticket]) ∧
    ∀ c ∈ (close_position conn nowIso st req).2.2,
      isTickCall c = false ∧ isOrderSend c = false := by
  have h1 : close_position conn nowIso st req =
      (touchSession st req.session_id nowIso,
       errEnvelope ("Position " ++ toString req.ticket ++ " not found"),
       [ConnCall.positionsGetTicket req.ticket]) := by
    simp [close_position, h, closePositionBody, hpos]
  refine ⟨h1, ?_⟩
  rw [h1]
  intro c hc
  simp only [List.mem_singleton] at hc
  subst hc
  exact ⟨rfl, rfl⟩

/-- Witness for C5 at a concrete input: a registered session and ticket 42
unknown to the connector. -/
theorem C5_close_unknown_ticket_witness :
    sessionsContains [("s1", ⟨7, "srv", "t0", "t0"⟩)] "s1" = true ∧
      close_position trivConn "t1" [("s1", ⟨7, "srv", "t0", "t0"⟩)] ⟨"s1", 42⟩ =
        (touchSession [("s1", ⟨7, "srv", "t0", "t0"⟩)] "s1" "t1",
         errEnvelope "Position 42 not found",
         [ConnCall.positionsGetTicket 42]) :=
  ⟨by decide,
   (C5_close_unknown_ticket trivConn "t1" [("s1", ⟨7, "srv", "t0", "t0"⟩)] ⟨"s1", 42⟩
      (by decide) rfl).1⟩

/-! ## Claim C4 -/

/-- Claim C4: when `place_order` is given no explicit price, the single
`order_send` request it submits carries the ask side of the quote just
fetched via `symbol_info_tick` for `type = 0` (buy) and the bid side for
`type = 1` (sell). -/
theorem C4_price_resolution (conn : MT5Conn) (nowIso : String) (st : Sessions)
    (ord : OrderRequest) (ti : TerminalInfo) (si : SymbolInfo) (tick : TickInfo)
    (h : sessionsContains st ord.session_id = true)
    (ht : conn.terminal_info = some ti) (hc : ti.connected = true)
    (hsym : conn.symbol_info ord.symbol = some si)
    (htick : conn.symbol_info_tick ord.symbol = some tick)
    (hp : ord.price = none) (_hty : ord.otype = 0 ∨ ord.otype = 1) :
    ∃ rd, (place_order conn nowIso st ord).2.2.filterMap sendArg = [rd] ∧
      rd.price = (if ord.otype = 0 then tick.ask else tick.bid) := by
  have hb : (place_order conn nowIso st ord).2.2 = (placeOrderBody conn nowIso ord).2 := by
    simp [place_order, h]
  rw [hb]
  simp only [placeOrderBody, ht, hc, hsym, htick, hp]
  cases hsend : conn.order_send _ with
  | none =>
      refine ⟨_, rfl, ?_⟩
      by_cases h0 : ord.otype = 0 <;> simp [h0, pyOrRat]
  | some res =>
      by_cases hr : res.retcode = TRADE_RETCODE_DONE
      · simp only [hr, ne_eq, not_true_eq_false, if_false]
        refine ⟨_, rfl, ?_⟩
        by_cases h0 : ord.otype = 0 <;> simp [h0, pyOrRat]
      · simp only [if_pos (by simpa [ne_eq] using hr)]
        refine ⟨_, rfl, ?_⟩
        by_cases h0 : ord.otype = 0 <;> simp [h0, pyOrRat]

/-- Connector stub with a live terminal and a fixed quote (bid 10, ask 12). -/
def quoteConn : MT5Conn :=
  { trivConn with
    terminal_info := some ⟨true, none⟩,
    symbol_info := fun _ => some ⟨true, true⟩,
    symbol_info_tick := fun _ => some ⟨10, 12⟩ }

/-- Witness for C4 at a concrete input: a buy order with no price resolves to
the stub's ask price 12. -/
theorem C4_price_resolution_witness :
    quoteConn.symbol_info_tick "EURUSD" = some ⟨10, 12⟩ ∧
      ∃ rd, (place_order quoteConn "t1" [("s1", ⟨7, "srv", "t0", "t0"⟩)]
          ⟨"s1", "EURUSD", 0, 1, none, none, none, "API Order"⟩).2.2.filterMap sendArg = [rd] ∧
        rd.price = 12 :=
  ⟨rfl,
   C4_price_resolution quoteConn "t1" [("s1", ⟨7, "srv", "t0", "t0"⟩)]
     ⟨"s1", "EURUSD", 0, 1, none, none, none, "API Order"⟩ ⟨true, none⟩ ⟨true, true⟩ ⟨10, 12⟩
     (by decide) rfl rfl rfl rfl rfl (Or.inl rfl)⟩

/-! ## Claim C1 -/

/-- Connector stub whose `order_send` always answers with the requote
retcode 10004 and comment "Requote". -/
def requoteConn : MT5Conn :=
  { quoteConn with
    order_send := fun _ => some ⟨TRADE_RETCODE_REQUOTE, "Requote", 0, 0⟩ }

/-- Counterexample to claim C1 at a concrete input: against a connector that
always requotes, `place_order` performs exactly one `order_send` and one
quote fetch (so no retry, no re-fetched quote, no delay loop) and fails with
`"Order failed: Requote"` — not with a message naming a 3-attempt bound. -/
theorem C1_no_retry_counterexample :
    (place_order requoteConn "t1" [("s1", ⟨7, "srv", "t0", "t0"⟩)]
        ⟨"s1", "EURUSD", 0, 1, none, none, none, "API Order"⟩).2.1 =
      errEnvelope "Order failed: Requote" ∧
    (place_order requoteConn "t1" [("s1", ⟨7, "srv", "t0", "t0"⟩)]
        ⟨"s1", "EURUSD", 0, 1, none, none, none, "API Order"⟩).2.2.countP isOrderSend = 1 ∧
    (place_order requoteConn "t1" [("s1", ⟨7, "srv", "t0", "t0"⟩)]
        ⟨"s1", "EURUSD", 0, 1, none, none, none, "API Order"⟩).2.2.countP isTickCall = 1 :=
  ⟨rfl, rfl, rfl⟩

/-- Claim C1 as amended: a `PlaceOrder` whose connector result carries any
non-success retcode (requotes included) is not retried: the gateway performs
exactly one `order_send` and fails immediately with
`"Order failed: {connector comment}"`. -/
theorem C1_requote_fails_immediately (conn : MT5Conn) (nowIso : String) (st : Sessions)
    (ord : OrderRequest) (ti : TerminalInfo) (si : SymbolInfo) (tick : TickInfo)
    (res : OrderResult) (h : sessionsContains st ord.session_id = true)
    (ht : conn.terminal_info = some ti) (hc : ti.connected = true)
    (hsym : conn.symbol_info ord.symbol = some si)
    (htick : conn.symbol_info_tick ord.symbol = some tick)
    (hsend : ∀ r, conn.order_send r = some res)
    (hret : res.retcode ≠ TRADE_RETCODE_DONE) :
    (place_order conn nowIso st ord).2.1 = errEnvelope ("Order failed: " ++ res.comment) ∧
    (place_order conn nowIso st ord).2.2.countP isOrderSend = 1 := by
  have hb : place_order conn nowIso st ord =
      (touchSession st ord.session_id nowIso, placeOrderBody conn nowIso ord) := by
    simp [place_order, h]
  rw [hb]
  simp only [placeOrderBody, ht, hc, hsym, htick, hsend, hret]
  constructor
  · simp [hret]
  · simp [hret, List.countP, List.countP.go, isOrderSend]

/-- Witness for the amended C1 at the always-requoting stub. -/
theorem C1_requote_fails_immediately_witness :
    requoteConn.order_send
        ⟨TRADE_ACTION_DEAL, "EURUSD", 1, 0, 12, 0, 0, 20, 12345, "API Order",
         ORDER_TIME_GTC, ORDER_FILLING_FOK, none⟩ =
      some ⟨TRADE_RETCODE_REQUOTE, "Requote", 0, 0⟩ ∧
    (place_order requoteConn "t2" [("s1", ⟨7, "srv", "t0", "t0"⟩)]
        ⟨"s1", "EURUSD", 0, 1, none, none, none, "API Order"⟩).2.1 =
      errEnvelope ("Order failed: " ++ "Requote") ∧
    (place_order requoteConn "t2" [("s1", ⟨7, "srv", "t0", "t0"⟩)]
        ⟨"s1", "EURUSD", 0, 1, none, none, none, "API Order"⟩).2.2.countP isOrderSend = 1 :=
  ⟨rfl,
   (C1_requote_fails_immediately requoteConn "t2" [("s1", ⟨7, "srv", "t0", "t0"⟩)]
      ⟨"s1", "EURUSD", 0, 1, none, none, none, "API Order"⟩ ⟨true, none⟩ ⟨true, true⟩
      ⟨10, 12⟩ ⟨TRADE_RETCODE_REQUOTE, "Requote", 0, 0⟩
      (by decide) rfl rfl rfl rfl (fun _ => rfl) (by decide)).1,
   (C1_requote_fails_immediately requoteConn "t2" [("s1", ⟨7, "srv", "t0", "t0"⟩)]
      ⟨"s1", "EURUSD", 0, 1, none, none, none, "API Order"⟩ ⟨true, none⟩ ⟨true, true⟩
      ⟨10, 12⟩ ⟨TRADE_RETCODE_REQUOTE, "Requote", 0, 0⟩
      (by decide) rfl rfl rfl rfl (fun _ => rfl) (by decide)).2⟩

/-! ## Claim C7 -/

/-- Claim C7: a successful `Connect` yields the session id
`"mt5_" + epoch-seconds + "_" + login` (a fixed prefix, the current epoch
seconds, the account login — hence containing the login as a suffix), reports
it under the `session_id` key of a success response, and registers it, so a
subsequent `touch` of that id succeeds. -/
theorem C7_connect_session_id (conn : MT5Conn) (epochNow : Int) (nowIso : String)
    (st : Sessions) (cred : MT5Credentials) (ai : AccountInfo)
    (hinit : (tryInit conn [0, 1, 2, 3, 4]).1 = true)
    (hlogin : conn.login cred.login cred.password cred.server = true)
    (hacc : conn.account_info = some ai) :
    jLookup (connect_to_mt5 conn epochNow nowIso st cred).2.1 "success" =
      some (.bool true) ∧
    jLookup (connect_to_mt5 conn epochNow nowIso st cred).2.1 "session_id" =
      some (.str (mkSessionId epochNow cred.login)) ∧
    (∃ pre, mkSessionId epochNow cred.login = pre ++ toString cred.login) ∧
    sessionsContains (connect_to_mt5 conn epochNow nowIso st cred).1
      (mkSessionId epochNow cred.login) = true ∧
    (∀ t, (touch (connect_to_mt5 conn epochNow nowIso st cred).1
        (mkSessionId epochNow cred.login) t).2 = true) := by
  have hr : connect_to_mt5 conn epochNow nowIso st cred =
      (sessionsSet st (mkSessionId epochNow cred.login)
        { login := cred.login, server := cred.server,
          connected_at := nowIso, last_activity := nowIso },
       .obj [("success", .bool true),
             ("session_id", .str (mkSessionId epochNow cred.login)),
             ("account_info", .obj
               [("login", .int ai.login), ("server", .str ai.server),
                ("balance", .rat ai.balance), ("equity", .rat ai.equity),
                ("margin", .rat ai.margin), ("free_margin", .rat ai.margin_free),
                ("margin_level", .rat ai.margin_level), ("currency", .str ai.currency),
                ("leverage", .int ai.leverage), ("company", .str ai.company),
                ("connected", .bool true),
                ("mode", .str (if containsSubstr cred.server.toLower "live" then "LIVE" else "DEMO"))])],
       (tryInit conn [0, 1, 2, 3, 4]).2 ++
         [ConnCall.terminalInfo, ConnCall.loginCall cred.login cred.server] ++
         [ConnCall.accountInfo]) := by
    simp [connect_to_mt5, hinit, hlogin, hacc]
  have hcontains : sessionsContains (connect_to_mt5 conn epochNow nowIso st cred).1
      (mkSessionId epochNow cred.login) = true := by
    rw [hr]
    exact sessionsContains_sessionsSet st _ _
  refine ⟨?_, ?_, ⟨"mt5_" ++ toString epochNow ++ "_", rfl⟩, hcontains, ?_⟩
  · rw [hr]
    rfl
  · rw [hr]
    rfl
  · intro t
    simp [touch, hcontains]

/-- Connector stub that accepts every path, login and account lookup. -/
def liveConn : MT5Conn :=
  { quoteConn with
    initPath := fun _ => true,
    login := fun _ _ _ => true,
    account_info := some ⟨7, "Exness-Live", 1000, 1000, 0, 1000, 0, "USD", 100, "Exness"⟩ }

/-- Witness for C7 at a concrete input: connecting login 7 at epoch 111
registers `"mt5_111_7"` and `touch` then accepts it. -/
theorem C7_connect_session_id_witness :
    liveConn.account_info = some ⟨7, "Exness-Live", 1000, 1000, 0, 1000, 0, "USD", 100, "Exness"⟩ ∧
    jLookup (connect_to_mt5 liveConn 111 "t0" [] ⟨7, "pw", "Exness-Live"⟩).2.1 "session_id" =
      some (.str "mt5_111_7") ∧
    (touch (connect_to_mt5 liveConn 111 "t0" [] ⟨7, "pw", "Exness-Live"⟩).1 "mt5_111_7" "t9").2 = true :=
  ⟨rfl,
   (C7_connect_session_id liveConn 111 "t0" [] ⟨7, "pw", "Exness-Live"⟩
      ⟨7, "Exness-Live", 1000, 1000, 0, 1000, 0, "USD", 100, "Exness"⟩ rfl rfl rfl).2.1,
   (C7_connect_session_id liveConn 111 "t0" [] ⟨7, "pw", "Exness-Live"⟩
      ⟨7, "Exness-Live", 1000, 1000, 0, 1000, 0, "USD", 100, "Exness"⟩ rfl rfl rfl).2.2.2.2 "t9"⟩

/-! ## Claim C9 -/

/-- The loop fold adds, to any starting tallies, one `processed` per
JSON-parsed line, one `inserted` per successfully inserted line and one
`errors` per failing line — over the entire stream. -/
lemma ingest_foldl (parseDate : String → Option Int) (insert : Row → InsertOutcome)
    (lines : List LineItem) (p i e : Nat) :
    lines.foldl (ingestStep parseDate insert) (p, i, e) =
      (p + lines.countP isJsonLine,
       i + lines.countP (lineInserts parseDate insert),
       e + lines.countP (lineFails parseDate insert)) := by
  induction lines generalizing p i e with
  | nil => simp
  | cons item rest ih =>
      cases item with
      | blank =>
          rw [List.foldl_cons]
          simp only [ingestStep]
          rw [ih]
          simp [List.countP_cons, isJsonLine, lineInserts, lineFails]
      | badJson =>
          rw [List.foldl_cons]
          simp only [ingestStep]
          rw [ih]
          simp only [List.countP_cons, isJsonLine, lineInserts, lineFails]
          simp
          omega
      | jsonEvent ev =>
          rw [List.foldl_cons]
          simp only [ingestStep]
          cases hpe : process_event parseDate ev with
          | none =>
              rw [ih]
              simp only [List.countP_cons, isJsonLine, lineInserts, lineFails, hpe]
              simp
              omega
          | some row =>
              cases hins : insert row with
              | okData =>
                  rw [ih]
                  simp only [List.countP_cons, isJsonLine, lineInserts, lineFails, hpe, hins]
                  simp
                  omega
              | okNoData =>
                  rw [ih]
                  simp only [List.countP_cons, isJsonLine, lineInserts, lineFails, hpe, hins]
                  simp
                  omega
              | dbError =>
                  rw [ih]
                  simp only [List.countP_cons, isJsonLine, lineInserts, lineFails, hpe, hins]
                  simp
                  omega

/-- Claim C9: for every input stream, the ingest loop consumes every line —
`processed` is the count of JSON-parsed lines, `errors` the count of failing
lines (malformed JSON, rejected events, failed inserts), `inserted` the count
of successful inserts, all totalled over the whole stream (so no per-line
failure aborts the loop) — and the exit status is 0 exactly when at least one
record was inserted. -/
theorem C9_ingest_counts_and_exit (parseDate : String → Option Int)
    (insert : Row → InsertOutcome) (lines : List LineItem) :
    ((ingest_events parseDate insert lines).exitCode = 0 ↔
        0 < (ingest_events parseDate insert lines).inserted) ∧
    (ingest_events parseDate insert lines).processed = lines.countP isJsonLine ∧
    (ingest_events parseDate insert lines).inserted =
      lines.countP (lineInserts parseDate insert) ∧
    (ingest_events parseDate insert lines).errors =
      lines.countP (lineFails parseDate insert) := by
  have hf := ingest_foldl parseDate insert lines 0 0 0
  simp only [ingest_events, hf]
  refine ⟨?_, by simp, by simp, by simp⟩
  by_cases h : 0 < lines.countP (lineInserts parseDate insert) <;> simp [h]

/-! ## Claim C10 -/

/-- Claim C10: when the mapped timeframe is at or above H1, or the symbol
starts with `"XAU"`, the caller-supplied `count`, `start_time` and `end_time`
are ignored entirely — two requests differing only in those fields produce
identical state, response and connector calls — and the substituted policy is
the hard-coded one: 7/14/30-day lookback windows for H1/H4/other timeframes,
and strictly descending fallback count sequences. -/
theorem C10_hist_ignores_caller_params (conn : MT5Conn) (parseIso : String → Option Int)
    (nowIso : String) (nowEpoch : Int) (st : Sessions) (sid sym : String) (tf : Int)
    (c₁ c₂ : Option Int) (s₁ s₂ e₁ e₂ : Option String)
    (hcond : TIMEFRAME_H1 ≤ timeframeMapping tf ∨ sym.startsWith "XAU" = true) :
    get_historical_data conn parseIso nowIso nowEpoch st ⟨sid, sym, tf, c₁, s₁, e₁⟩ =
      get_historical_data conn parseIso nowIso nowEpoch st ⟨sid, sym, tf, c₂, s₂, e₂⟩ ∧
    (h1DaysBack TIMEFRAME_H1 = 7 ∧ h1DaysBack TIMEFRAME_H4 = 14 ∧ h1DaysBack TIMEFRAME_D1 = 30) ∧
    List.Chain' (fun a b => b < a) h1CountOptions ∧
    (∀ t, List.Chain' (fun a b => b < a) (xauCountOptions t)) := by
  have hfetch : ∀ endT, histFetch conn parseIso nowEpoch endT ⟨sid, sym, tf, c₁, s₁, e₁⟩ =
      histFetch conn parseIso nowEpoch endT ⟨sid, sym, tf, c₂, s₂, e₂⟩ := by
    intro endT
    rcases hcond with hH | hX
    · simp [histFetch, hH]
    · by_cases hH : TIMEFRAME_H1 ≤ timeframeMapping tf
      · simp [histFetch, hH]
      · simp [histFetch, hH, hX]
  have hbody : histBody conn parseIso nowEpoch ⟨sid, sym, tf, c₁, s₁, e₁⟩ =
      histBody conn parseIso nowEpoch ⟨sid, sym, tf, c₂, s₂, e₂⟩ := by
    simp only [histBody, hfetch]
  refine ⟨?_, ⟨by decide, by decide, by decide⟩,
    by norm_num [h1CountOptions, List.chain'_cons], ?_⟩
  · simp only [get_historical_data, hbody]
  · intro t
    unfold xauCountOptions
    split
    · norm_num [List.chain'_cons]
    · split <;> norm_num [List.chain'_cons]

/-- Witness for C10 at a concrete input: a daily-timeframe request maps to
TIMEFRAME_D1 ≥ TIMEFRAME_H1, so two requests with different `count` and
range parameters are handled identically. -/
theorem C10_hist_ignores_caller_params_witness :
    TIMEFRAME_H1 ≤ timeframeMapping 1440 ∧
      get_historical_data trivConn (fun _ => none) "t1" 0
          [("s1", ⟨7, "srv", "t0", "t0"⟩)] ⟨"s1", "EURUSD", 1440, some 50, none, none⟩ =
        get_historical_data trivConn (fun _ => none) "t1" 0
          [("s1", ⟨7, "srv", "t0", "t0"⟩)] ⟨"s1", "EURUSD", 1440, some 999, some "2024-01-01", some "2024-02-01"⟩ :=
  ⟨by decide,
   (C10_hist_ignores_caller_params trivConn (fun _ => none) "t1" 0
      [("s1", ⟨7, "srv", "t0", "t0"⟩)] "s1" "EURUSD" 1440 (some 50) (some 999)
      none (some "2024-01-01") none (some "2024-02-01") (Or.inl (by decide))).1⟩

/-! ## Claim C8 -/

/-- Keys of a JSON object, in order. -/
def barKeys : JVal → List String
  | .obj fs => fs.map Prod.fst
  | _ => []

/-- The 8 documented bar keys. -/
def bar8Keys : List String :=
  ["time", "open", "high", "low", "close", "tick_volume", "spread", "real_volume"]

/-- Every normalized bar carries exactly the documented 8 keys. -/
lemma barKeys_mkBar (b : RawBar) : barKeys (mkBar b) = bar8Keys := rfl

/-- The count loop stops at its first non-empty fetch. -/
lemma tryCountsFrom_head (conn : MT5Conn) (sym : String) (tf c : Int)
    (rest : List Int) (bars : List RawBar)
    (hpos : conn.copy_rates_from_pos sym tf 0 c = some bars)
    (hne : bars.isEmpty = false) :
    tryCountsFrom conn sym tf (c :: rest) =
      (some bars, [ConnCall.copyRatesFromPos sym tf 0 c]) := by
  simp [tryCountsFrom, hpos, hne]

/-- The XAU count-option list is never empty. -/
lemma xauCountOptions_cons (t : Int) : ∃ c rest, xauCountOptions t = c :: rest := by
  unfold xauCountOptions
  split
  · exact ⟨5, _, rfl⟩
  · split
    · exact ⟨5, _, rfl⟩
    · exact ⟨500, _, rfl⟩

/-- Claim C8: against a connector stub on which every rates fetch returns the
same 50 bars (and the symbol resolves and selects), a historical-data request
with `count = 50` and no explicit time range yields a success envelope whose
`data.count` is 50 and whose every bar has exactly the 8 documented numeric
keys. -/
theorem C8_hist_count50_success (conn : MT5Conn) (parseIso : String → Option Int)
    (nowIso : String) (nowEpoch : Int) (st : Sessions) (req : HistoricalDataRequest)
    (si : SymbolInfo) (bars : List RawBar)
    (h : sessionsContains st req.session_id = true)
    (hcount : req.count = some 50) (hst : req.start_time = none) (hed : req.end_time = none)
    (hsym : conn.symbol_info req.symbol = some si)
    (hsel : conn.symbol_select req.symbol true = true)
    (hrange : ∀ s tfx a b, conn.copy_rates_range s tfx a b = some bars)
    (hpos : ∀ s tfx p c, conn.copy_rates_from_pos s tfx p c = some bars)
    (hlen : bars.length = 50) :
    ∃ d bs,
      jLookup (get_historical_data conn parseIso nowIso nowEpoch st req).2.1 "success" =
        some (.bool true) ∧
      jLookup (get_historical_data conn parseIso nowIso nowEpoch st req).2.1 "data" = some d ∧
      jLookup d "count" = some (.int 50) ∧
      jLookup d "bars" = some (.list bs) ∧
      ∀ b ∈ bs, barKeys b = bar8Keys := by
  have hne : bars.isEmpty = false := by
    cases bars with
    | nil => simp at hlen
    | cons a l => rfl
  have hfetch : ∀ endT, (histFetch conn parseIso nowEpoch endT req).1 = .ok (some bars) := by
    intro endT
    unfold histFetch
    by_cases hH : TIMEFRAME_H1 ≤ timeframeMapping req.timeframe
    · rw [if_pos hH]
      unfold histH1Branch
      rw [hsym]
      simp [hrange, ratesNonempty, hne]
    · rw [if_neg hH]
      by_cases hX : req.symbol.startsWith "XAU" = true
      · simp only [hX, if_true]
        unfold histXauBranch
        rw [hsym]
        obtain ⟨c, rest, hco⟩ := xauCountOptions_cons req.timeframe
        rw [hco, tryCountsFrom_head conn req.symbol req.timeframe c rest bars (hpos _ _ _ _) hne]
      · simp [hX, hst, hed, truthyS, truthyI, hcount, hpos]
  have hbody : (histBody conn parseIso nowEpoch req).1 =
      (histFinish conn req.symbol req.timeframe (some bars)).1 := by
    unfold histBody
    rw [hsym]
    simp [hsel, hfetch]
  have hfin : (histFinish conn req.symbol req.timeframe (some bars)).1 =
      dataEnvelope (.obj
        [("symbol", .str req.symbol), ("timeframe", .int req.timeframe),
         ("count", .int bars.length), ("bars", .list (bars.map mkBar))]) := by
    simp [histFinish, hne]
  have hresp : (get_historical_data conn parseIso nowIso nowEpoch st req).2.1 =
      dataEnvelope (.obj
        [("symbol", .str req.symbol), ("timeframe", .int req.timeframe),
         ("count", .int bars.length), ("bars", .list (bars.map mkBar))]) := by
    have : (get_historical_data conn parseIso nowIso nowEpoch st req).2.1 =
        (histBody conn parseIso nowEpoch req).1 := by
      simp [get_historical_data, h]
    rw [this, hbody, hfin]
  refine ⟨.obj [("symbol", .str req.symbol), ("timeframe", .int req.timeframe),
      ("count", .int bars.length), ("bars", .list (bars.map mkBar))],
    bars.map mkBar, ?_, ?_, ?_, ?_, ?_⟩
  · rw [hresp]; rfl
  · rw [hresp]; rfl
  · simp [jLookup, jGet, hlen]
  · rfl
  · intro b hb
    rw [List.mem_map] at hb
    obtain ⟨rb, _, rfl⟩ := hb
    exact barKeys_mkBar rb

/-- A single synthetic bar. -/
def bar0 : RawBar := ⟨0, 1, 2, 3, 4, 5, 6, 7⟩

/-- Fifty synthetic bars. -/
def bars50 : List RawBar := List.replicate 50 bar0

/-- Connector stub whose every rates fetch returns the 50 synthetic bars. -/
def histConn : MT5Conn :=
  { trivConn with
    symbol_info := fun _ => some ⟨true, true⟩,
    symbol_select := fun _ _ => true,
    copy_rates_range := fun _ _ _ _ => some bars50,
    copy_rates_from_pos := fun _ _ _ _ => some bars50 }

/-- Witness for C8 at a concrete input: a 15-minute request for 50 bars
against the 50-bar stub. -/
theorem C8_hist_count50_success_witness :
    bars50.length = 50 ∧
      ∃ d bs,
        jLookup (get_historical_data histConn (fun _ => none) "t1" 0
            [("s1", ⟨7, "srv", "t0", "t0"⟩)] ⟨"s1", "EURUSD", 15, some 50, none, none⟩).2.1
          "success" = some (.bool true) ∧
        jLookup (get_historical_data histConn (fun _ => none) "t1" 0
            [("s1", ⟨7, "srv", "t0", "t0"⟩)] ⟨"s1", "EURUSD", 15, some 50, none, none⟩).2.1
          "data" = some d ∧
        jLookup d "count" = some (.int 50) ∧
        jLookup d "bars" = some (.list bs) ∧
        ∀ b ∈ bs, barKeys b = bar8Keys :=
  ⟨by decide,
   C8_hist_count50_success histConn (fun _ => none) "t1" 0
     [("s1", ⟨7, "srv", "t0", "t0"⟩)] ⟨"s1", "EURUSD", 15, some 50, none, none⟩
     ⟨true, true⟩ bars50 (by decide) rfl rfl rfl rfl rfl
     (fun _ _ _ _ => rfl) (fun _ _ _ _ => rfl) (by decide)⟩

/-! ## Claim C3 -/

/-- A response is a standard envelope: either the failure envelope or the
`{"success": True, "data": ...}` success envelope. -/
def stdEnv (v : JVal) : Prop :=
  (∃ m, v = errEnvelope m) ∨ (∃ p, v = dataEnvelope p)

/-- Core envelope invariant: a boolean `success` key, `error` present with a
string exactly on failure, and never `data` alongside `error`. -/
def envOk (v : JVal) : Prop :=
  (jLookup v "success" = some (.bool true) ∧ jLookup v "error" = none) ∨
  (jLookup v "success" = some (.bool false) ∧ (∃ m, jLookup v "error" = some (.str m)) ∧
    jLookup v "data" = none)

/-- The `data` key is absent exactly on failure. -/
def dataIffSuccess (v : JVal) : Prop :=
  jLookup v "data" = none ↔ jLookup v "success" = some (.bool false)

/-- The failure envelope satisfies the core invariant. -/
lemma envOk_errEnvelope (m : String) : envOk (errEnvelope m) :=
  Or.inr ⟨rfl, ⟨m, rfl⟩, rfl⟩

/-- The success envelope satisfies the core invariant. -/
lemma envOk_dataEnvelope (p : JVal) : envOk (dataEnvelope p) :=
  Or.inl ⟨rfl, rfl⟩

/-- The failure envelope has no `data` key and a false `success`. -/
lemma dataIffSuccess_errEnvelope (m : String) : dataIffSuccess (errEnvelope m) :=
  ⟨fun _ => rfl, fun _ => rfl⟩

/-- The success envelope has a `data` key and a true `success`. -/
lemma dataIffSuccess_dataEnvelope (p : JVal) : dataIffSuccess (dataEnvelope p) := by
  constructor <;> intro hx <;> simp [dataEnvelope, jLookup, jGet] at hx

/-- Standard envelopes satisfy both invariants. -/
lemma stdEnv_good (v : JVal) (h : stdEnv v) : envOk v ∧ dataIffSuccess v := by
  rcases h with ⟨m, rfl⟩ | ⟨p, rfl⟩
  · exact ⟨envOk_errEnvelope m, dataIffSuccess_errEnvelope m⟩
  · exact ⟨envOk_dataEnvelope p, dataIffSuccess_dataEnvelope p⟩

/-- Every `account_info` body response is a standard envelope. -/
lemma accountInfoBody_std (conn : MT5Conn) : stdEnv (accountInfoBody conn).1 := by
  simp only [accountInfoBody]
  split
  · exact Or.inl ⟨_, rfl⟩
  · exact Or.inr ⟨_, rfl⟩

/-- Every `symbol_price` body response is a standard envelope. -/
lemma symbolPriceBody_std (conn : MT5Conn) (nowIso symbol : String) :
    stdEnv (symbolPriceBody conn nowIso symbol).1 := by
  simp only [symbolPriceBody]
  repeat' split
  all_goals first
    | exact Or.inl ⟨_, rfl⟩
    | exact Or.inr ⟨_, rfl⟩

/-- Every `place_order` body response is a standard envelope. -/
lemma placeOrderBody_std (conn : MT5Conn) (nowIso : String) (ord : OrderRequest) :
    stdEnv (placeOrderBody conn nowIso ord).1 := by
  simp only [placeOrderBody]
  repeat' split
  all_goals first
    | exact Or.inl ⟨_, rfl⟩
    | exact Or.inr ⟨_, rfl⟩

/-- Every `close_position` body response is a standard envelope. -/
lemma closePositionBody_std (conn : MT5Conn) (nowIso : String) (req : ClosePositionRequest) :
    stdEnv (closePositionBody conn nowIso req).1 := by
  simp only [closePositionBody]
  repeat' split
  all_goals first
    | exact Or.inl ⟨_, rfl⟩
    | exact Or.inr ⟨_, rfl⟩

/-- Every `server_time` body response is a standard envelope. -/
lemma serverTimeBody_std (conn : MT5Conn) : stdEnv (serverTimeBody conn).1 := by
  simp only [serverTimeBody]
  repeat' split
  all_goals exact Or.inl ⟨_, rfl⟩

/-- The `symbols_get` tail satisfies the core invariant and never emits a
`data` key. -/
lemma symbolsFetch_shape (conn : MT5Conn) :
    envOk (symbolsFetch conn).1 ∧ jLookup (symbolsFetch conn).1 "data" = none := by
  simp only [symbolsFetch]
  split
  · exact ⟨envOk_errEnvelope _, rfl⟩
  · exact ⟨Or.inl ⟨rfl, rfl⟩, rfl⟩

/-- The `symbols` body satisfies the core invariant and never emits a `data`
key. -/
lemma symbolsBody_shape (conn : MT5Conn) :
    envOk (symbolsBody conn).1 ∧ jLookup (symbolsBody conn).1 "data" = none := by
  simp only [symbolsBody]
  repeat' split
  all_goals first
    | exact ⟨envOk_errEnvelope _, rfl⟩
    | exact symbolsFetch_shape conn

/-- An error leaving the H1 count fallback is a failure envelope. -/
lemma histH1Counts_err (conn : MT5Conn) (sym : String) (tf : Int) (env : JVal)
    (h : (histH1Counts conn sym tf).1 = .error env) : ∃ m, env = errEnvelope m := by
  simp only [histH1Counts] at h
  split at h
  · simp at h
  · simp at h
    exact ⟨_, h.symm⟩

/-- An error leaving the H1 branch is a failure envelope. -/
lemma histH1Branch_err (conn : MT5Conn) (sym : String) (tf endT : Int) (env : JVal)
    (h : (histH1Branch conn sym tf endT).1 = .error env) : ∃ m, env = errEnvelope m := by
  simp only [histH1Branch] at h
  split at h
  · simp at h
    exact ⟨_, h.symm⟩
  · split at h
    · simp at h
    · simp at h
      exact histH1Counts_err conn sym tf env h

/-- An error leaving the XAU branch is a failure envelope. -/
lemma histXauBranch_err (conn : MT5Conn) (sym : String) (tfRaw nowEpoch : Int) (env : JVal)
    (h : (histXauBranch conn sym tfRaw nowEpoch).1 = .error env) : ∃ m, env = errEnvelope m := by
  simp only [histXauBranch] at h
  split at h
  · simp at h
    exact ⟨_, h.symm⟩
  · split at h
    · simp at h
    · split at h
      · simp at h
      · simp at h
        exact ⟨_, h.symm⟩

/-- An error leaving the explicit-range branch is a failure envelope. -/
lemma histRangeBranch_err (conn : MT5Conn) (parseIso : String → Option Int)
    (sym : String) (tfRaw : Int) (startS endS : String) (env : JVal)
    (h : (histRangeBranch conn parseIso sym tfRaw startS endS).1 = .error env) :
    ∃ m, env = errEnvelope m := by
  simp only [histRangeBranch] at h
  split at h
  · simp at h
    exact ⟨_, h.symm⟩
  · split at h
    · simp at h
      exact ⟨_, h.symm⟩
    · split at h
      · split at h <;> simp at h
      · simp at h

/-- An error leaving the fetch dispatch is a failure envelope. -/
lemma histFetch_err (conn : MT5Conn) (parseIso : String → Option Int)
    (nowEpoch endT : Int) (req : HistoricalDataRequest) (env : JVal)
    (h : (histFetch conn parseIso nowEpoch endT req).1 = .error env) :
    ∃ m, env = errEnvelope m := by
  simp only [histFetch] at h
  split at h
  · exact histH1Branch_err _ _ _ _ _ h
  · split at h
    · exact histXauBranch_err _ _ _ _ _ h
    · split at h
      · exact histRangeBranch_err _ _ _ _ _ _ _ h
      · split at h
        · simp at h
        · simp at h
          exact ⟨_, h.symm⟩

/-- The shared rates tail is a standard envelope. -/
lemma histFinish_std (conn : MT5Conn) (sym : String) (tfRaw : Int)
    (r : Option (List RawBar)) : stdEnv (histFinish conn sym tfRaw r).1 := by
  cases r with
  | none => exact Or.inl ⟨_, rfl⟩
  | some l =>
      simp only [histFinish]
      split
      · exact Or.inl ⟨_, rfl⟩
      · exact Or.inr ⟨_, rfl⟩

/-- Every `historical_data` body response is a standard envelope. -/
lemma histBody_std (conn : MT5Conn) (parseIso : String → Option Int)
    (nowEpoch : Int) (req : HistoricalDataRequest) :
    stdEnv (histBody conn parseIso nowEpoch req).1 := by
  simp only [histBody]
  split
  · exact Or.inl ⟨_, rfl⟩
  · split
    · exact Or.inl ⟨_, rfl⟩
    · split
      · rename_i env heq
        obtain ⟨m, rfl⟩ := histFetch_err _ _ _ _ _ _ heq
        exact Or.inl ⟨m, rfl⟩
      · exact histFinish_std _ _ _ _

/-- The `connect` response satisfies the core invariant and never emits a
`data` key: its success payload lives in top-level `session_id` and
`account_info` fields instead. -/
lemma connect_shape (conn : MT5Conn) (epochNow : Int) (nowIso : String)
    (st : Sessions) (cred : MT5Credentials) :
    envOk (connect_to_mt5 conn epochNow nowIso st cred).2.1 ∧
      jLookup (connect_to_mt5 conn epochNow nowIso st cred).2.1 "data" = none := by
  simp only [connect_to_mt5]
  repeat' split
  all_goals first
    | exact ⟨envOk_errEnvelope _, rfl⟩
    | exact ⟨Or.inl ⟨rfl, rfl⟩, rfl⟩

/-- Connector stub with a connected terminal and one listed symbol. -/
def symbolsConn : MT5Conn :=
  { trivConn with
    terminal_info := some ⟨true, none⟩,
    symbols_get := some [⟨"EURUSD", "Euro vs US Dollar", "Forex"⟩] }

/-- Counterexample to claim C3 at a concrete input: a successful `symbols`
command returns `success = true` with no `data` key at all (its payload is in
top-level `symbols`/`total` fields), so "data present iff success" fails as
stated.  (`connect` success responses likewise carry `session_id` and
`account_info` instead of `data`.) -/
theorem C3_data_key_counterexample :
    jLookup (get_symbols symbolsConn "t1" [("s1", ⟨7, "srv", "t0", "t0"⟩)] ⟨"s1"⟩).2.1
        "success" = some (.bool true) ∧
      jLookup (get_symbols symbolsConn "t1" [("s1", ⟨7, "srv", "t0", "t0"⟩)] ⟨"s1"⟩).2.1
        "data" = none :=
  ⟨rfl, rfl⟩

/-- Claim C3 as amended: every command's envelope has a boolean `success`,
carries an `error` string exactly when `success` is false, and never both a
`data` payload and an `error`; `account_info`, `symbol_price`, `place_order`,
`close_position`, `historical_data` and `server_time` have the `data` key
exactly when `success` is true, while `connect` and `symbols` never emit a
`data` key — their success payloads are the top-level `session_id` and
`account_info`, respectively `symbols` and `total`, fields. -/
theorem C3_envelope_amended (conn : MT5Conn) (parseIso : String → Option Int)
    (epochNow nowEpoch : Int) (nowIso : String) (st : Sessions) :
    (∀ cred : MT5Credentials,
        envOk (connect_to_mt5 conn epochNow nowIso st cred).2.1 ∧
        jLookup (connect_to_mt5 conn epochNow nowIso st cred).2.1 "data" = none) ∧
    (∀ req : SessionRequest,
        envOk (get_account_info conn nowIso st req).2.1 ∧
        dataIffSuccess (get_account_info conn nowIso st req).2.1 ∧
        envOk (get_server_time conn nowIso st req).2.1 ∧
        dataIffSuccess (get_server_time conn nowIso st req).2.1 ∧
        envOk (get_symbols conn nowIso st req).2.1 ∧
        jLookup (get_symbols conn nowIso st req).2.1 "data" = none) ∧
    (∀ req : SymbolPriceRequest,
        envOk (get_symbol_price conn nowIso st req).2.1 ∧
        dataIffSuccess (get_symbol_price conn nowIso st req).2.1) ∧
    (∀ ord : OrderRequest,
        envOk (place_order conn nowIso st ord).2.1 ∧
        dataIffSuccess (place_order conn nowIso st ord).2.1) ∧
    (∀ req : ClosePositionRequest,
        envOk (close_position conn nowIso st req).2.1 ∧
        dataIffSuccess (close_position conn nowIso st req).2.1) ∧
    (∀ req : HistoricalDataRequest,
        envOk (get_historical_data conn parseIso nowIso nowEpoch st req).2.1 ∧
        dataIffSuccess (get_historical_data conn parseIso nowIso nowEpoch st req).2.1) := by
  have hstd : ∀ v : JVal, stdEnv v → envOk v ∧ dataIffSuccess v := stdEnv_good
  refine ⟨fun cred => connect_shape conn epochNow nowIso st cred,
    fun req => ?_, fun req => ?_, fun ord => ?_, fun req => ?_, fun req => ?_⟩
  · have h1 : stdEnv (get_account_info conn nowIso st req).2.1 := by
      simp only [get_account_info]
      split
      · exact Or.inl ⟨_, rfl⟩
      · exact accountInfoBody_std conn
    have h2 : stdEnv (get_server_time conn nowIso st req).2.1 := by
      simp only [get_server_time]
      split
      · exact Or.inl ⟨_, rfl⟩
      · exact serverTimeBody_std conn
    have h3 : envOk (get_symbols conn nowIso st req).2.1 ∧
        jLookup (get_symbols conn nowIso st req).2.1 "data" = none := by
      simp only [get_symbols]
      split
      · exact ⟨envOk_errEnvelope _, rfl⟩
      · exact symbolsBody_shape conn
    exact ⟨(hstd _ h1).1, (hstd _ h1).2, (hstd _ h2).1, (hstd _ h2).2, h3.1, h3.2⟩
  · have h1 : stdEnv (get_symbol_price conn nowIso st req).2.1 := by
      simp only [get_symbol_price]
      split
      · exact Or.inl ⟨_, rfl⟩
      · exact symbolPriceBody_std conn nowIso req.symbol
    exact hstd _ h1
  · have h1 : stdEnv (place_order conn nowIso st ord).2.1 := by
      simp only [place_order]
      split
      · exact Or.inl ⟨_, rfl⟩
      · exact placeOrderBody_std conn nowIso ord
    exact hstd _ h1
  · have h1 : stdEnv (close_position conn nowIso st req).2.1 := by
      simp only [close_position]
      split
      · exact Or.inl ⟨_, rfl⟩
      · exact closePositionBody_std conn nowIso req
    exact hstd _ h1
  · have h1 : stdEnv (get_historical_data conn parseIso nowIso nowEpoch st req).2.1 := by
      simp only [get_historical_data]
      split
      · exact Or.inl ⟨_, rfl⟩
      · exact histBody_std conn parseIso nowEpoch req
    exact hstd _ h1

end ForexPulse
